import Mathlib

/-!
Shallow embedding of the marshaling/dispatch layer of `src/shim.cc`:
tagged values, the type-test/coercion engine, the exception bridge's
error formatting, the argument-unpacking engine, and the native call
trampoline (`Static`).

Machine pointers into the V8 heap are modelled by an explicit `JSValue`
describing the runtime object a handle refers to; the C `shim_val_t`
struct `{ void* handle; shim_type_t type; }` becomes a Lean structure
pairing that runtime value with the cached tag.  Mutation of a
`shim_val_t` (tag caching) is modelled by explicit state passing, and
NULL pointers by `Option`.
-/

namespace Shim

/-- The `shim_type_t` enumeration from shim.h, as used by shim.cc. -/
inductive shim_type_t where
  | unknown
  | undefined
  | null
  | bool
  | date
  | array
  | object
  | integer
  | int32
  | uint32
  | number
  | external
  | jsfunction
  | string
  | buffer
deriving DecidableEq, Repr

/-- The runtime (V8) value a handle points at.  Numbers are modelled with
integer payloads (the claims under study never depend on non-integral
numeric payloads), externals by an address, buffers by their bytes. -/
inductive JSValue where
  | jsUndefined
  | jsNull
  | jsBool (b : Bool)
  | jsNumber (n : Int)
  | jsString (s : String)
  | jsArray (len : Nat)
  | jsObject
  | jsFunction
  | jsExternal (addr : Nat)
  | jsDate (t : Int)
  | jsBuffer (data : List Nat)
deriving DecidableEq, Repr

/-- `shim_val_t`: an opaque handle plus a (lazily cached) type tag. -/
structure shim_val_t where
  handle : JSValue
  type : shim_type_t
deriving DecidableEq, Repr

/-- The process-wide `undefined` sentinel `shim__undefined` (shim.cc line 93):
a value with no live handle and tag `SHIM_TYPE_UNDEFINED`.  The NULL C
handle is modelled by `jsUndefined` (it is never dereferenced on the
sentinel paths under study). -/
def shim__undefined : shim_val_t := ⟨JSValue.jsUndefined, shim_type_t.undefined⟩

/-- The process-wide `null` sentinel `shim__null` (shim.cc line 98). -/
def shim__null : shim_val_t := ⟨JSValue.jsNull, shim_type_t.null⟩

/-- V8 `IsInt32`: an integral number in signed 32-bit range. -/
def isInt32 (v : JSValue) : Bool :=
  match v with
  | JSValue.jsNumber n => decide (-(2^31) ≤ n ∧ n < 2^31)
  | _ => false

/-- V8 `IsUint32`: an integral number in unsigned 32-bit range. -/
def isUint32 (v : JSValue) : Bool :=
  match v with
  | JSValue.jsNumber n => decide (0 ≤ n ∧ n < 2^32)
  | _ => false

/-- V8 `IsObject`: arrays, plain objects, functions, dates and buffers are
all objects in the runtime's sense. -/
def isObjectJS (v : JSValue) : Bool :=
  match v with
  | JSValue.jsArray _ => true
  | JSValue.jsObject => true
  | JSValue.jsFunction => true
  | JSValue.jsDate _ => true
  | JSValue.jsBuffer _ => true
  | _ => false

/-- The body of the `switch` in `shim_value_is` (shim.cc lines 356-405):
the single underlying runtime type test performed for a requested type.
`SHIM_TYPE_UNKNOWN` and the `default` arm return FALSE without invoking
any runtime predicate. -/
def runtimeTypeTest (v : JSValue) (t : shim_type_t) : Bool :=
  match t with
  | shim_type_t.object => isObjectJS v
  | shim_type_t.string => (match v with | JSValue.jsString _ => true | _ => false)
  | shim_type_t.number => (match v with | JSValue.jsNumber _ => true | _ => false)
  | shim_type_t.integer => (match v with | JSValue.jsNumber _ => true | _ => false)
  | shim_type_t.int32 => isInt32 v
  | shim_type_t.uint32 => isUint32 v
  | shim_type_t.array => (match v with | JSValue.jsArray _ => true | _ => false)
  | shim_type_t.bool => (match v with | JSValue.jsBool _ => true | _ => false)
  | shim_type_t.undefined => (match v with | JSValue.jsUndefined => true | _ => false)
  | shim_type_t.null => (match v with | JSValue.jsNull => true | _ => false)
  | shim_type_t.external => (match v with | JSValue.jsExternal _ => true | _ => false)
  | shim_type_t.date => (match v with | JSValue.jsDate _ => true | _ => false)
  | shim_type_t.jsfunction => (match v with | JSValue.jsFunction => true | _ => false)
  | shim_type_t.buffer => (match v with | JSValue.jsBuffer _ => true | _ => false)
  | shim_type_t.unknown => false

/-- `shim_value_is` (shim.cc lines 347-411), state-passing: returns the
boolean result, the (possibly tag-updated) value, and the number of
underlying runtime type tests performed (0 on the cached path and for the
`unknown`/`default` arm, 1 otherwise).  A matching cached tag returns TRUE
without testing; a successful test caches the tag; a failed test leaves
the value unchanged. -/
def shim_value_is (val : shim_val_t) (t : shim_type_t) :
    Bool × shim_val_t × Nat :=
  if val.type = t then (true, val, 0)
  else
    let ret := runtimeTypeTest val.handle t
    let tests := if t = shim_type_t.unknown then 0 else 1
    (ret, if ret then { val with type := t } else val, tests)

/-- `shim_value_release` (shim.cc lines 527-533).  The argument is an
`Option` to model the NULL-pointer check; the result records whether a
`free` was performed.  The value itself is never mutated. -/
def shim_value_release (val : Option shim_val_t) : Bool :=
  match val with
  | none => false
  | some v =>
      !(v.type = shim_type_t.null) && !(v.type = shim_type_t.undefined)

/-- V8 `ToBoolean` (used by the `OBJ_TO_` macros' coercion arms). -/
def toBooleanJS (v : JSValue) : JSValue :=
  match v with
  | JSValue.jsUndefined => JSValue.jsBool false
  | JSValue.jsNull => JSValue.jsBool false
  | JSValue.jsBool b => JSValue.jsBool b
  | JSValue.jsNumber n => JSValue.jsBool (n ≠ 0)
  | JSValue.jsString s => JSValue.jsBool (s ≠ "")
  | _ => JSValue.jsBool true

/-- V8 `ToNumber` on the integral model: standard numeric coercion. -/
def toNumberJS (v : JSValue) : JSValue :=
  match v with
  | JSValue.jsNumber n => JSValue.jsNumber n
  | JSValue.jsBool b => JSValue.jsNumber (if b then 1 else 0)
  | JSValue.jsNull => JSValue.jsNumber 0
  | JSValue.jsDate t => JSValue.jsNumber t
  | _ => JSValue.jsNumber 0

/-- V8 `ToString`: the runtime's standard string coercion. -/
def toStringJS (v : JSValue) : JSValue :=
  match v with
  | JSValue.jsString s => JSValue.jsString s
  | JSValue.jsNumber n => JSValue.jsString (toString n)
  | JSValue.jsBool b => JSValue.jsString (if b then "true" else "false")
  | JSValue.jsUndefined => JSValue.jsString "undefined"
  | JSValue.jsNull => JSValue.jsString "null"
  | _ => JSValue.jsString "[object]"

/-- V8 `ToInt32`: numeric coercion wrapped to signed 32-bit. -/
def toInt32JS (v : JSValue) : JSValue :=
  match toNumberJS v with
  | JSValue.jsNumber n =>
      JSValue.jsNumber (((n + 2^31) % 2^32) - 2^31)
  | w => w

/-- V8 `ToUint32`: numeric coercion wrapped to unsigned 32-bit. -/
def toUint32JS (v : JSValue) : JSValue :=
  match toNumberJS v with
  | JSValue.jsNumber n => JSValue.jsNumber (n % 2^32)
  | w => w

/-- V8 `ToObject` (the `OBJ_TO_OBJECT` macro's coercion arm). -/
def toObjectJS (v : JSValue) : JSValue :=
  if isObjectJS v then v else JSValue.jsObject

/-- `shim_value_to` (shim.cc lines 448-504), with the destination `rval`
threaded in-out.  Mirrors the C switch exactly, including the missing
`break` after `case SHIM_TYPE_STRING` (line 496): that case writes
`rval->handle` and then falls through into `default: return FALSE`, so
`rval->type` is never set and FALSE is returned.  `SHIM_TYPE_DATE` and
`SHIM_TYPE_BUFFER` have no case and hit `default` as well. -/
def shim_value_to (val : shim_val_t) (t : shim_type_t) (rval : shim_val_t) :
    Bool × shim_val_t :=
  if val.type = t then
    (true, { rval with handle := val.handle, type := t })
  else
    match t with
    | shim_type_t.undefined =>
        (true, { rval with handle := JSValue.jsUndefined, type := t })
    | shim_type_t.null =>
        (true, { rval with handle := JSValue.jsNull, type := t })
    | shim_type_t.bool =>
        (true, { rval with handle := toBooleanJS val.handle, type := t })
    | shim_type_t.array =>
        (true, { rval with handle := val.handle, type := t })
    | shim_type_t.object =>
        (true, { rval with handle := toObjectJS val.handle, type := t })
    | shim_type_t.integer =>
        (true, { rval with handle := toNumberJS val.handle, type := t })
    | shim_type_t.int32 =>
        (true, { rval with handle := toInt32JS val.handle, type := t })
    | shim_type_t.uint32 =>
        (true, { rval with handle := toUint32JS val.handle, type := t })
    | shim_type_t.number =>
        (true, { rval with handle := toNumberJS val.handle, type := t })
    | shim_type_t.external =>
        (true, { rval with handle := val.handle, type := t })
    | shim_type_t.jsfunction =>
        (true, { rval with handle := val.handle, type := t })
    | shim_type_t.string =>
        (false, { rval with handle := toStringJS val.handle })
    | _ => (false, rval)

/-- `shim_type_str` (shim.cc lines 1761-1787): the stringified enum name. -/
def shim_type_str (t : shim_type_t) : String :=
  match t with
  | shim_type_t.unknown => "SHIM_TYPE_UNKNOWN"
  | shim_type_t.undefined => "SHIM_TYPE_UNDEFINED"
  | shim_type_t.null => "SHIM_TYPE_NULL"
  | shim_type_t.bool => "SHIM_TYPE_BOOL"
  | shim_type_t.date => "SHIM_TYPE_DATE"
  | shim_type_t.array => "SHIM_TYPE_ARRAY"
  | shim_type_t.object => "SHIM_TYPE_OBJECT"
  | shim_type_t.integer => "SHIM_TYPE_INTEGER"
  | shim_type_t.int32 => "SHIM_TYPE_INT32"
  | shim_type_t.uint32 => "SHIM_TYPE_UINT32"
  | shim_type_t.number => "SHIM_TYPE_NUMBER"
  | shim_type_t.external => "SHIM_TYPE_EXTERNAL"
  | shim_type_t.jsfunction => "SHIM_TYPE_FUNCTION"
  | shim_type_t.string => "SHIM_TYPE_STRING"
  | shim_type_t.buffer => "SHIM_TYPE_BUFFER"

/-- The error kinds of `enum shim_err_type` (shim.cc lines 151-155). -/
inductive shim_err_type where
  | error
  | typeErr
  | range
deriving DecidableEq, Repr

/-- `SHIM_ERROR_LENGTH` (shim.cc line 158): the fixed message buffer size. -/
def SHIM_ERROR_LENGTH : Nat := 512

/-- The effect of `vsnprintf(buf, 512, ...)` on an already-formatted
message: at most `SHIM_ERROR_LENGTH - 1 = 511` characters are stored (the
last buffer byte holds the terminator); longer output is truncated, and
truncation is not an error (vsnprintf still returns normally). -/
def vsnprintf512 (msg : String) : String :=
  String.mk (msg.toList.take (SHIM_ERROR_LENGTH - 1))

/-- A runtime-native error object, as produced by
`Exception::Error/TypeError/RangeError` on the formatted buffer. -/
structure shim_error_t where
  kind : shim_err_type
  message : String
deriving DecidableEq, Repr

/-- `shim_format_error` (shim.cc lines 160-180): format into the fixed
512-byte buffer, then build the runtime error object of the requested
kind from the buffer contents.  The printf expansion of `msg`/`ap` is
taken as the input string; only the buffer bound is modelled here. -/
def shim_format_error (t : shim_err_type) (msg : String) : shim_error_t :=
  ⟨t, vsnprintf512 msg⟩

/-- `shim_throw_error` (shim.cc lines 1503-1510): the generic-error throw
path of the Exception Bridge; returns the exception it installs. -/
def shim_throw_error (msg : String) : shim_error_t :=
  shim_format_error shim_err_type.error msg

/-- `shim_throw_type_error` (shim.cc lines 1517-1524). -/
def shim_throw_type_error (msg : String) : shim_error_t :=
  shim_format_error shim_err_type.typeErr msg

/-- `shim_throw_range_error` (shim.cc lines 1531-1538). -/
def shim_throw_range_error (msg : String) : shim_error_t :=
  shim_format_error shim_err_type.range msg

/-- `shim_external_value` (shim.cc lines 1392-1404): unwrap an external. -/
def shim_external_value (v : JSValue) : Nat :=
  match v with
  | JSValue.jsExternal addr => addr
  | _ => 0

/-- `shim_buffer_value` (shim.cc lines 1329-1342): the buffer's data. -/
def shim_buffer_value (v : JSValue) : List Nat :=
  match v with
  | JSValue.jsBuffer data => data
  | _ => []

/-- The raw storage written through a `void*` destination by
`shim_unpack_type`: one constructor per extractable representation. -/
inductive Unpacked where
  | uBool (b : Bool)
  | uInteger (n : Int)
  | uUint32 (n : Int)
  | uInt32 (n : Int)
  | uNumber (n : Int)
  | uExternal (addr : Nat)
  | uBuffer (data : List Nat)
  | uStringHandle (h : JSValue)
deriving DecidableEq, Repr

/-- `IntegerValue` of a value already known to be a number. -/
def integerValueJS (v : JSValue) : Int :=
  match v with
  | JSValue.jsNumber n => n
  | _ => 0

/-- `shim_unpack_type` (shim.cc lines 1547-1593): first run
`shim_value_is` (which may cache the tag on the argument); on failure
return FALSE.  On success, switch on the requested type and write the raw
representation; `undefined`, `null`, `date`, `array`, `object`,
`function` and the `default` arm (`unknown`) return FALSE.  Returns the
optional written destination plus the possibly tag-updated argument, or
`none` for FALSE. -/
def shim_unpack_type (arg : shim_val_t) (t : shim_type_t) :
    Option (Unpacked × shim_val_t) :=
  match shim_value_is arg t with
  | (false, _, _) => none
  | (true, arg1, _) =>
    match t with
    | shim_type_t.bool =>
        some (Unpacked.uBool (toBooleanJS arg1.handle = JSValue.jsBool true), arg1)
    | shim_type_t.integer =>
        some (Unpacked.uInteger (integerValueJS (toNumberJS arg1.handle)), arg1)
    | shim_type_t.uint32 =>
        some (Unpacked.uUint32 (integerValueJS (toUint32JS arg1.handle)), arg1)
    | shim_type_t.int32 =>
        some (Unpacked.uInt32 (integerValueJS (toInt32JS arg1.handle)), arg1)
    | shim_type_t.number =>
        some (Unpacked.uNumber (integerValueJS (toNumberJS arg1.handle)), arg1)
    | shim_type_t.external =>
        some (Unpacked.uExternal (shim_external_value arg1.handle), arg1)
    | shim_type_t.buffer =>
        some (Unpacked.uBuffer (shim_buffer_value arg1.handle), arg1)
    | shim_type_t.string =>
        some (Unpacked.uStringHandle (toStringJS arg1.handle), arg1)
    | _ => none

/-- The loop of `shim_unpack` (shim.cc lines 1633-1645), with the va_list
of `(type, destination)` pairs as a list of types (the trailing
`SHIM_TYPE_UNKNOWN` marker is the end of that list, and an `unknown`
element ends it early, exactly as the loop condition `ctype !=
SHIM_TYPE_UNKNOWN` does).  `cur` is both the argument index and the
position of the current destination; `dests` holds the caller-supplied
destinations, `none` meaning not yet written.  On the first failing
argument a type error naming the index and the expected type is thrown
and FALSE is returned immediately. -/
def shim_unpack_go (argv : List shim_val_t) (types : List shim_type_t)
    (cur : Nat) (dests : List (Option Unpacked)) :
    Bool × List (Option Unpacked) × Option shim_error_t :=
  match types with
  | [] => (true, dests, none)
  | ctype :: rest =>
    if ctype = shim_type_t.unknown then
      (true, dests, none)
    else if h : cur < argv.length then
      match shim_unpack_type (argv.get ⟨cur, h⟩) ctype with
      | none =>
          (false, dests,
           some (shim_throw_type_error
             ("Argument " ++ toString cur ++ " not of type "
               ++ shim_type_str ctype)))
      | some (u, arg1) =>
          shim_unpack_go (argv.set cur arg1) rest (cur + 1)
            (dests.set cur (some u))
    else (true, dests, none)

/-- `shim_unpack` (shim.cc lines 1624-1650): run the loop from index 0
with all destinations unwritten. -/
def shim_unpack (argv : List shim_val_t) (types : List shim_type_t) :
    Bool × List (Option Unpacked) × Option shim_error_t :=
  shim_unpack_go argv types 0 (List.replicate types.length none)

/-- The extraction the loop performs at argument/pair index `i`, read off
the original frame: `shim_unpack_type` on the `i`-th argument with the
`i`-th requested type (`none` when out of range or unextractable). -/
def unpackAt (argv : List shim_val_t) (ts : List shim_type_t) (i : Nat) :
    Option Unpacked :=
  match argv[i]?, ts[i]? with
  | some v, some t => (shim_unpack_type v t).map Prod.fst
  | _, _ => none

/-- `shim_val_alloc` (shim.cc lines 109-117) as used by the trampoline:
wrap a native handle with tag `SHIM_TYPE_UNKNOWN`. -/
def shim_val_alloc (h : JSValue) : shim_val_t :=
  ⟨h, shim_type_t.unknown⟩

/-- `shim_args_t` as populated by `Static` (shim.cc lines 231-247):
argument count, owned argument values, return slot (a pointer, `none`
modelling NULL), and the receiver.  The opaque user-data pointer is not
modelled (no claim depends on it). -/
structure shim_args_t where
  argc : Nat
  argv : List shim_val_t
  ret : Option shim_val_t
  self : shim_val_t
deriving Repr

/-- `buildFrame`: the frame `Static` constructs before dispatch
(shim.cc lines 231-247).  The return slot is initialized to the
`undefined` sentinel pointer (`sargs.ret = shim_undefined()`, line 234);
every argument and the receiver are freshly allocated with tag
`unknown`. -/
def buildFrame (argsIn : List JSValue) (selfIn : JSValue) : shim_args_t :=
  { argc := argsIn.length
    argv := argsIn.map shim_val_alloc
    ret := some shim__undefined
    self := shim_val_alloc selfIn }

/-- What a registered callback may have done to the frame by the time it
returns, per the API surface it is given: it can re-tag argument values
and the receiver (through `shim_value_is` / `shim_value_to`), overwrite
the return-slot pointer (through `shim_args_set_rval`, including with
NULL), return a success/failure boolean, and leave a pending exception in
the TryCatch (through the Exception Bridge).  It cannot change `argc` or
the argument pointers themselves. -/
structure CallbackEffect where
  ok : Bool
  argvTags : List shim_type_t
  selfTag : shim_type_t
  retSlot : Option shim_val_t
  exc : Option JSValue

/-- Apply the callback's tag updates to the frame's argument values. -/
def applyTags (argv : List shim_val_t) (tags : List shim_type_t) :
    List shim_val_t :=
  argv.mapIdx (fun i v => { v with type := tags.getD i v.type })

/-- Collect Result (shim.cc lines 256-272): read the frame's return slot;
a slot holding a pointer to an `undefined`-tagged value yields the
runtime's `Undefined`, a `null`-tagged one yields `Null`, any other
value's handle passes through, and a NULL slot pointer defaults to
`Null`. -/
def collectResult (r : Option shim_val_t) : JSValue :=
  match r with
  | some v =>
    match v.type with
    | shim_type_t.undefined => JSValue.jsUndefined
    | shim_type_t.null => JSValue.jsNull
    | _ => v.handle
  | none => JSValue.jsNull

/-- Observable events of one trampoline invocation, in program order. -/
inductive TEvent where
  | allocArg (i : Nat)
  | allocSelf
  | dispatch (ok : Bool)
  | releaseArg (i : Nat) (freed : Bool)
  | releaseSelf (freed : Bool)
  | rethrow
deriving DecidableEq, Repr

/-- Does this event release argument `i` (a `shim_value_release` call on
`sargs.argv[i]`, whether or not it freed)? -/
def isReleaseOfArg (i : Nat) (e : TEvent) : Bool :=
  match e with
  | TEvent.releaseArg j _ => j == i
  | _ => false

/-- Does this event release the receiver? -/
def isReleaseOfSelf (e : TEvent) : Bool :=
  match e with
  | TEvent.releaseSelf _ => true
  | _ => false

/-- The result of one trampoline invocation: the event trace, the
collected return value, and the outcome the host runtime observes
(`Except.error e` when the TryCatch holds a pending exception at exit —
it is rethrown and the return value is not set — otherwise `Except.ok`
of the collected value). -/
structure TrampOut where
  trace : List TEvent
  collected : JSValue
  outcome : Except JSValue JSValue

/-- `Static` (shim.cc lines 211-304), the native call trampoline, over an
arbitrary registered callback: build the frame (return slot preset to the
undefined sentinel), dispatch, collect the result from the return slot
(NULL slot defaults to Null), release every argument value
`sargs.argv[i]` for `i < sargs.argc` and then the receiver — in straight
line, regardless of the callback's success/failure and of any pending
exception — and finally rethrow a pending exception instead of
delivering the collected value. -/
def Static (argsIn : List JSValue) (selfIn : JSValue)
    (cfunc : shim_args_t → CallbackEffect) : TrampOut :=
  let sargs := buildFrame argsIn selfIn
  let allocEvents :=
    (List.range sargs.argc).map TEvent.allocArg ++ [TEvent.allocSelf]
  let eff := cfunc sargs
  let argv1 := applyTags sargs.argv eff.argvTags
  let self1 := { sargs.self with type := eff.selfTag }
  let ret := collectResult eff.retSlot
  let relEvents :=
    (List.range sargs.argc).map
      (fun i => TEvent.releaseArg i (shim_value_release argv1[i]?))
    ++ [TEvent.releaseSelf (shim_value_release (some self1))]
  let excEvents :=
    match eff.exc with
    | some _ => [TEvent.rethrow]
    | none => []
  { trace := allocEvents ++ [TEvent.dispatch eff.ok] ++ relEvents ++ excEvents
    collected := ret
    outcome :=
      match eff.exc with
      | some e => Except.error e
      | none => Except.ok ret }

/-- Like `unpackAt`, with the argument index offset by `base` against the
pair index: the extraction the loop performs for pair `i` after `base`
pairs have already been consumed. -/
def unpackAtFrom (argv : List shim_val_t) (ts : List shim_type_t)
    (base i : Nat) : Option Unpacked :=
  match argv[base + i]?, ts[i]? with
  | some v, some t => (shim_unpack_type v t).map Prod.fst
  | _, _ => none

/-- A callback that touches nothing: returns success, leaves every tag,
the return slot and the exception state as they are. -/
def cbLeaveUnset : shim_args_t → CallbackEffect :=
  fun sargs =>
    { ok := true
      argvTags := sargs.argv.map shim_val_t.type
      selfTag := sargs.self.type
      retSlot := sargs.ret
      exc := none }

/-- A callback that both installs a return value (the number 7) and
leaves a pending exception. -/
def cbThrowAndReturn : shim_args_t → CallbackEffect :=
  fun sargs =>
    { ok := false
      argvTags := sargs.argv.map shim_val_t.type
      selfTag := sargs.self.type
      retSlot := some ⟨JSValue.jsNumber 7, shim_type_t.unknown⟩
      exc := some (JSValue.jsString "boom") }

/-- A callback that sets the return slot to the NULL pointer. -/
def cbNullRet : shim_args_t → CallbackEffect :=
  fun sargs =>
    { ok := true
      argvTags := sargs.argv.map shim_val_t.type
      selfTag := sargs.self.type
      retSlot := none
      exc := none }

/-- A callback that classifies its first argument and fails without
raising. -/
def cbFailQuiet : shim_args_t → CallbackEffect :=
  fun sargs =>
    { ok := false
      argvTags := sargs.argv.map shim_val_t.type
      selfTag := sargs.self.type
      retSlot := sargs.ret
      exc := none }

/-- The call frame of the spec's unpack example: arguments `42` and an
object, both freshly wrapped with tag `unknown`. -/
def exampleArgv : List shim_val_t :=
  [⟨JSValue.jsNumber 42, shim_type_t.unknown⟩,
   ⟨JSValue.jsObject, shim_type_t.unknown⟩]

/-- The requested types of the spec's unpack example. -/
def exampleTs : List shim_type_t :=
  [shim_type_t.number, shim_type_t.string]

/-! ## Helper lemmas -/

/-- Unfolding `shim_value_is` on the cached-tag path. -/
theorem shim_value_is_cached (v : shim_val_t) (t : shim_type_t)
    (h : v.type = t) : shim_value_is v t = (true, v, 0) := by
  simp [shim_value_is, h]

/-- The `unknown`/`default` arm never performs a runtime test and always
answers FALSE. -/
theorem runtimeTypeTest_unknown (h : JSValue) :
    runtimeTypeTest h shim_type_t.unknown = false := rfl

/-- Unfolding `shim_value_is` when the tag misses and the runtime test
succeeds: the tag is cached and one test was performed. -/
theorem shim_value_is_test_true (v : shim_val_t) (t : shim_type_t)
    (h : ¬v.type = t) (hr : runtimeTypeTest v.handle t = true) :
    shim_value_is v t = (true, { v with type := t }, 1) := by
  have ht : ¬t = shim_type_t.unknown := by
    intro he
    rw [he, runtimeTypeTest_unknown] at hr
    exact Bool.false_ne_true hr
  simp [shim_value_is, h, hr, ht]

/-- Unfolding `shim_value_is` when the tag misses and the runtime test
fails: the value is unchanged and no caching happens. -/
theorem shim_value_is_test_false (v : shim_val_t) (t : shim_type_t)
    (h : ¬v.type = t) (hr : runtimeTypeTest v.handle t = false) :
    shim_value_is v t
      = (false, v, if t = shim_type_t.unknown then 0 else 1) := by
  simp [shim_value_is, h, hr]

/-- Stepping the unpack loop once shifts the extraction view: pair `i` of
the remaining list against the updated frame is pair `i+1` of the
original list against the original frame (the loop only ever overwrites
the argument entry it has just consumed). -/
theorem unpackAtFrom_shift (argv : List shim_val_t) (arg1 : shim_val_t)
    (t0 : shim_type_t) (rest : List shim_type_t) (cur i : Nat) :
    unpackAtFrom (argv.set cur arg1) rest (cur + 1) i
      = unpackAtFrom argv (t0 :: rest) cur (i + 1) := by
  unfold unpackAtFrom
  have e1 : cur + 1 + i = cur + (i + 1) := by omega
  rw [List.getElem?_set_ne (by omega), e1, List.getElem?_cons_succ]

/-- `unpackAtFrom` at base 0 is `unpackAt`. -/
theorem unpackAtFrom_zero (argv : List shim_val_t) (ts : List shim_type_t)
    (i : Nat) : unpackAtFrom argv ts 0 i = unpackAt argv ts i := by
  unfold unpackAtFrom unpackAt
  rw [Nat.zero_add]

/-- The unpack loop, started at offset `cur`, stops at the first failing
pair: if pairs `0..d-1` extract successfully, no sentinel appears up to
`d`, and pair `d` (within `argc`) cannot extract, the loop returns FALSE
with a type error naming index `cur+d` and the expected type, leaves the
destinations below `cur` and from `cur+d` on untouched, and has written
destination `cur+i` with pair `i`'s extraction for every `i < d`. -/
theorem shim_unpack_go_fail (d : Nat) :
    ∀ (ts : List shim_type_t) (argv : List shim_val_t) (cur : Nat)
      (dests : List (Option Unpacked)) (td : shim_type_t),
      cur + ts.length ≤ dests.length →
      ts[d]? = some td →
      cur + d < argv.length →
      (∀ i, i ≤ d → ts[i]? ≠ some shim_type_t.unknown) →
      (∀ i, i < d → (unpackAtFrom argv ts cur i).isSome = true) →
      unpackAtFrom argv ts cur d = none →
      (shim_unpack_go argv ts cur dests).1 = false
      ∧ (shim_unpack_go argv ts cur dests).2.2
          = some (shim_throw_type_error
              ("Argument " ++ toString (cur + d) ++ " not of type "
                ++ shim_type_str td))
      ∧ (∀ i, i < cur →
          (shim_unpack_go argv ts cur dests).2.1[i]? = dests[i]?)
      ∧ (∀ i, i < d →
          (shim_unpack_go argv ts cur dests).2.1[cur + i]?
            = some (unpackAtFrom argv ts cur i))
      ∧ (∀ i, cur + d ≤ i →
          (shim_unpack_go argv ts cur dests).2.1[i]? = dests[i]?) := by
  induction d with
  | zero =>
    intro ts argv cur dests td hdl htd hja hs hok hfail
    cases ts with
    | nil => simp at htd
    | cons t0 rest =>
      rw [List.getElem?_cons_zero] at htd
      injection htd with heq
      subst heq
      have hunk : ¬t0 = shim_type_t.unknown := by
        have h0 := hs 0 (Nat.zero_le 0)
        rw [List.getElem?_cons_zero] at h0
        intro he
        exact h0 (by rw [he])
      have hcur : cur < argv.length := by omega
      have hf2 : (shim_unpack_type (argv.get ⟨cur, hcur⟩) t0).map Prod.fst
          = none := by
        have hf := hfail
        unfold unpackAtFrom at hf
        simp only [Nat.add_zero] at hf
        rw [List.getElem?_eq_getElem hcur, List.getElem?_cons_zero] at hf
        exact hf
      have hfail3 : shim_unpack_type (argv.get ⟨cur, hcur⟩) t0 = none :=
        Option.map_eq_none'.mp hf2
      simp only [shim_unpack_go]
      rw [if_neg hunk, dif_pos hcur, hfail3]
      refine ⟨rfl, ?_, ?_, ?_, ?_⟩
      · simp only [Nat.add_zero]
      · intro i _
        rfl
      · intro i hi
        exact absurd hi (Nat.not_lt_zero i)
      · intro i _
        rfl
  | succ d ih =>
    intro ts argv cur dests td hdl htd hja hs hok hfail
    cases ts with
    | nil => simp at htd
    | cons t0 rest =>
      rw [List.getElem?_cons_succ] at htd
      have hunk : ¬t0 = shim_type_t.unknown := by
        have h0 := hs 0 (Nat.zero_le _)
        rw [List.getElem?_cons_zero] at h0
        intro he
        exact h0 (by rw [he])
      have hcur : cur < argv.length := by omega
      have h0ok := hok 0 (Nat.succ_pos d)
      have h0ok2 : (shim_unpack_type (argv.get ⟨cur, hcur⟩) t0).isSome
          = true := by
        unfold unpackAtFrom at h0ok
        simp only [Nat.add_zero] at h0ok
        rw [List.getElem?_eq_getElem hcur, List.getElem?_cons_zero] at h0ok
        have h2 : ((shim_unpack_type (argv.get ⟨cur, hcur⟩) t0).map
            Prod.fst).isSome = true := h0ok
        rwa [Option.isSome_map'] at h2
      rcases hsome : shim_unpack_type (argv.get ⟨cur, hcur⟩) t0
        with _ | ⟨u, arg1⟩
      · rw [hsome] at h0ok2
        simp at h0ok2
      · have hgo : shim_unpack_go argv (t0 :: rest) cur dests
            = shim_unpack_go (argv.set cur arg1) rest (cur + 1)
                (dests.set cur (some u)) := by
          simp only [shim_unpack_go]
          rw [if_neg hunk, dif_pos hcur, hsome]
        have hcd : cur < dests.length := by
          simp only [List.length_cons] at hdl
          omega
        have IH := ih rest (argv.set cur arg1) (cur + 1)
          (dests.set cur (some u)) td
          (by rw [List.length_set]
              simp only [List.length_cons] at hdl
              omega)
          htd
          (by rw [List.length_set]
              omega)
          (by intro i hi
              have h := hs (i + 1) (Nat.succ_le_succ hi)
              rwa [List.getElem?_cons_succ] at h)
          (by intro i hi
              rw [unpackAtFrom_shift argv arg1 t0 rest cur i]
              exact hok (i + 1) (Nat.succ_lt_succ hi))
          (by rw [unpackAtFrom_shift argv arg1 t0 rest cur d]
              exact hfail)
        rw [hgo]
        obtain ⟨IH1, IH2, IH3, IH4, IH5⟩ := IH
        refine ⟨IH1, ?_, ?_, ?_, ?_⟩
        · rw [IH2]
          have e : cur + 1 + d = cur + (d + 1) := by omega
          rw [e]
        · intro i hi
          rw [IH3 i (by omega)]
          exact List.getElem?_set_ne (by omega)
        · intro i hi
          cases i with
          | zero =>
            simp only [Nat.add_zero]
            rw [IH3 cur (by omega)]
            rw [List.getElem?_set_eq_of_lt (some u) hcd]
            have hview : unpackAtFrom argv (t0 :: rest) cur 0
                = (shim_unpack_type (argv.get ⟨cur, hcur⟩) t0).map
                    Prod.fst := by
              unfold unpackAtFrom
              simp only [Nat.add_zero]
              rw [List.getElem?_eq_getElem hcur, List.getElem?_cons_zero]
              rfl
            rw [hview, hsome]
            rfl
          | succ j =>
            have e : cur + (j + 1) = cur + 1 + j := by omega
            rw [e, IH4 j (by omega)]
            rw [unpackAtFrom_shift argv arg1 t0 rest cur j]
        · intro i hi
          rw [IH5 i (by omega)]
          exact List.getElem?_set_ne (by omega)

/-- The unpack loop returns TRUE with no exception whenever every pair it
actually reaches (below `argc` and before any sentinel) extracts
successfully: reaching the end of the pair list, a sentinel, or `argc`
all exit with success. -/
theorem shim_unpack_go_ok (ts : List shim_type_t) :
    ∀ (argv : List shim_val_t) (cur : Nat)
      (dests : List (Option Unpacked)),
      (∀ i, i < ts.length → cur + i < argv.length →
        ts[i]? = some shim_type_t.unknown
        ∨ (unpackAtFrom argv ts cur i).isSome = true) →
      (shim_unpack_go argv ts cur dests).1 = true
      ∧ (shim_unpack_go argv ts cur dests).2.2 = none := by
  induction ts with
  | nil =>
    intro argv cur dests _
    exact ⟨rfl, rfl⟩
  | cons t0 rest ih =>
    intro argv cur dests hok
    by_cases hunk : t0 = shim_type_t.unknown
    · simp only [shim_unpack_go]
      rw [if_pos hunk]
      exact ⟨rfl, rfl⟩
    · by_cases hcur : cur < argv.length
      · have h0 := hok 0 (by simp only [List.length_cons]; omega) (by omega)
        rcases h0 with h0 | h0
        · rw [List.getElem?_cons_zero] at h0
          exact absurd (Option.some.inj h0) hunk
        · have h0ok2 : (shim_unpack_type (argv.get ⟨cur, hcur⟩) t0).isSome
              = true := by
            unfold unpackAtFrom at h0
            simp only [Nat.add_zero] at h0
            rw [List.getElem?_eq_getElem hcur,
                List.getElem?_cons_zero] at h0
            have h2 : ((shim_unpack_type (argv.get ⟨cur, hcur⟩) t0).map
                Prod.fst).isSome = true := h0
            rwa [Option.isSome_map'] at h2
          rcases hsome : shim_unpack_type (argv.get ⟨cur, hcur⟩) t0
            with _ | ⟨u, arg1⟩
          · rw [hsome] at h0ok2
            simp at h0ok2
          · have hgo : shim_unpack_go argv (t0 :: rest) cur dests
                = shim_unpack_go (argv.set cur arg1) rest (cur + 1)
                    (dests.set cur (some u)) := by
              simp only [shim_unpack_go]
              rw [if_neg hunk, dif_pos hcur, hsome]
            rw [hgo]
            apply ih
            intro i hi hia
            have h := hok (i + 1)
              (by simp only [List.length_cons]; omega)
              (by rw [List.length_set] at hia; omega)
            rcases h with hl | hr
            · left
              rwa [List.getElem?_cons_succ] at hl
            · right
              rwa [unpackAtFrom_shift argv arg1 t0 rest cur i]
      · simp only [shim_unpack_go]
        rw [if_neg hunk, dif_neg hcur]
        exact ⟨rfl, rfl⟩

/-! ## Theorems -/

/-- C8: releasing either process-wide sentinel through
`shim_value_release` is a no-op that performs no free (the tag check on
`SHIM_TYPE_NULL` / `SHIM_TYPE_UNDEFINED` short-circuits before `free`),
and since nothing mutates the sentinels, `is(undefined_sentinel,
undefined)` and `is(null_sentinel, null)` hold — on the cached-tag path,
with no runtime test and no mutation — for the life of the process. -/
theorem sentinel_release_noop_and_is_holds :
    shim_value_release (some shim__undefined) = false
    ∧ shim_value_release (some shim__null) = false
    ∧ shim_value_is shim__undefined shim_type_t.undefined
        = (true, shim__undefined, 0)
    ∧ shim_value_is shim__null shim_type_t.null = (true, shim__null, 0) := by
  decide

/-- C9: every error construction through the Exception Bridge formats
its message into the fixed 512-byte buffer: the stored message is always
shorter than `SHIM_ERROR_LENGTH`, a message that fits (shorter than 512
bytes including terminator) is stored unchanged, and a formatted message
of 512 bytes or more is truncated to the first 511 bytes — the error
object of the requested kind is still produced, so truncation is never
reported as an error. -/
theorem shim_format_error_bounded_truncation (t : shim_err_type)
    (msg : String) :
    (shim_format_error t msg).kind = t
    ∧ (shim_format_error t msg).message.length < SHIM_ERROR_LENGTH
    ∧ (msg.length < SHIM_ERROR_LENGTH →
        (shim_format_error t msg).message = msg)
    ∧ (SHIM_ERROR_LENGTH ≤ msg.length →
        (shim_format_error t msg).message.length = SHIM_ERROR_LENGTH - 1
        ∧ (shim_format_error t msg).message.toList
            = msg.toList.take (SHIM_ERROR_LENGTH - 1)) := by
  refine ⟨rfl, ?_, ?_, ?_⟩
  · show (String.mk (msg.toList.take 511)).length < 512
    rw [String.length_mk, List.length_take]
    omega
  · intro h
    show String.mk (msg.toList.take 511) = msg
    have hlen : msg.toList.length ≤ 511 := by
      cases msg with
      | mk data => simpa [String.length] using Nat.lt_succ_iff.mp h
    rw [List.take_of_length_le hlen]
    cases msg
    rfl
  · intro h
    have hlen : 511 ≤ msg.toList.length := by
      cases msg with
      | mk data =>
        have h2 : 512 ≤ data.length := h
        exact Nat.le_of_succ_le h2
    constructor
    · show (String.mk (msg.toList.take 511)).length = 511
      rw [String.length_mk, List.length_take]
      omega
    · show (String.mk (msg.toList.take 511)).toList = msg.toList.take 511
      rfl

/-- Witness for C9 at a concrete 600-byte message: the stored message is
cut to 511 bytes. -/
theorem shim_format_error_bounded_truncation_witness :
    (shim_format_error shim_err_type.typeErr
        (String.mk (List.replicate 600 'a'))).message.length
      = SHIM_ERROR_LENGTH - 1 :=
  ((shim_format_error_bounded_truncation shim_err_type.typeErr
      (String.mk (List.replicate 600 'a'))).2.2.2
    (by rw [String.length_mk, List.length_replicate]; decide)).1

/-- C2: evaluating `shim_value_to` at a number with target type string
exposes the missing `break` after `case SHIM_TYPE_STRING` (shim.cc line
496): the coerced string handle is written into the destination, but
control falls through into `default: return FALSE`, so the conversion —
which the runtime's standard numeric-to-string rule defines — reports
failure and never sets the destination's tag. -/
theorem shim_value_to_string_fallthrough :
    shim_value_to ⟨JSValue.jsNumber 42, shim_type_t.number⟩
        shim_type_t.string ⟨JSValue.jsUndefined, shim_type_t.unknown⟩
      = (false, ⟨JSValue.jsString "42", shim_type_t.unknown⟩) := by
  decide

/-- C4 counterexample: two consecutive `shim_value_is(v, T)` calls on a
value whose runtime test for `T` fails (here a number tested as a string)
perform the underlying runtime type test twice — one per call — because a
failed test is never cached; this refutes the claimed "at most once"
bound. -/
theorem shim_value_is_repeated_test_cex :
    (shim_value_is ⟨JSValue.jsNumber 5, shim_type_t.unknown⟩
        shim_type_t.string).1 = false
    ∧ (shim_value_is ⟨JSValue.jsNumber 5, shim_type_t.unknown⟩
        shim_type_t.string).2.2
      + (shim_value_is
          (shim_value_is ⟨JSValue.jsNumber 5, shim_type_t.unknown⟩
            shim_type_t.string).2.1 shim_type_t.string).2.2 = 2 := by
  decide

/-- C4 as amended: calling `shim_value_is(v, T)` twice in a row yields
the same boolean result and leaves the value in the same state; each call
performs at most one runtime type test; and whenever the first call
returns TRUE (cached tag or successful, now-cached test) the second call
takes the cached path and performs no test at all.  A failed test,
however, is not cached, so it is repeated by the second call. -/
theorem shim_value_is_memoization (v : shim_val_t) (t : shim_type_t) :
    (shim_value_is (shim_value_is v t).2.1 t).1 = (shim_value_is v t).1
    ∧ (shim_value_is (shim_value_is v t).2.1 t).2.1
        = (shim_value_is v t).2.1
    ∧ (shim_value_is v t).2.2 ≤ 1
    ∧ ((shim_value_is v t).1 = true →
        (shim_value_is (shim_value_is v t).2.1 t).2.2 = 0) := by
  by_cases h : v.type = t
  · rw [shim_value_is_cached v t h]
    simp [shim_value_is_cached v t h]
  · rcases hr : runtimeTypeTest v.handle t with _ | _
    · rw [shim_value_is_test_false v t h hr]
      simp only [shim_value_is_test_false v t h hr]
      refine ⟨trivial, trivial, ?_, ?_⟩
      · split <;> omega
      · simp
    · rw [shim_value_is_test_true v t h hr]
      simp only
      rw [shim_value_is_cached { v with type := t } t rfl]
      simp

/-- Witness for C4's amended theorem: after a successful classification
of a number, the second call performs no runtime test. -/
theorem shim_value_is_memoization_witness :
    (shim_value_is
      (shim_value_is ⟨JSValue.jsNumber 5, shim_type_t.unknown⟩
        shim_type_t.number).2.1 shim_type_t.number).2.2 = 0 :=
  (shim_value_is_memoization ⟨JSValue.jsNumber 5, shim_type_t.unknown⟩
    shim_type_t.number).2.2.2 (by decide)

/-- C6: requesting unpacking into a structured type — array, object,
function, or date — always fails: those arms of `shim_unpack_type`'s
switch fall into `return FALSE` whatever the argument's runtime type is
(even when the preceding `shim_value_is` succeeded). -/
theorem shim_unpack_type_structured_fails (arg : shim_val_t)
    (t : shim_type_t)
    (h : t = shim_type_t.array ∨ t = shim_type_t.object
       ∨ t = shim_type_t.jsfunction ∨ t = shim_type_t.date) :
    shim_unpack_type arg t = none := by
  rcases h with rfl | rfl | rfl | rfl <;>
    · unfold shim_unpack_type
      rcases hst : shim_value_is arg _ with ⟨b, a1, n⟩
      cases b <;> simp

/-- Witness for C6: unpacking an actual array argument as
`SHIM_TYPE_ARRAY` still fails. -/
theorem shim_unpack_type_structured_fails_witness :
    shim_unpack_type ⟨JSValue.jsArray 3, shim_type_t.unknown⟩
        shim_type_t.array = none :=
  shim_unpack_type_structured_fails
    ⟨JSValue.jsArray 3, shim_type_t.unknown⟩ shim_type_t.array
    (Or.inl rfl)

/-- C1 counterexample: a trampoline invocation whose callback leaves the
return slot untouched.  The slot was initialized to the `undefined`
sentinel pointer (`sargs.ret = shim_undefined()`, shim.cc line 234), so
Collect Result reads tag `SHIM_TYPE_UNDEFINED` and returns the runtime's
`Undefined` — not `Null` as the claim states.  The `Null` default (line
271) applies only to a NULL slot pointer, which an unset slot never is. -/
theorem trampoline_unset_ret_is_undefined_cex :
    (Static [JSValue.jsNumber 1] JSValue.jsObject cbLeaveUnset).collected
        = JSValue.jsUndefined
    ∧ (Static [JSValue.jsNumber 1] JSValue.jsObject cbLeaveUnset).outcome
        = Except.ok JSValue.jsUndefined
    ∧ JSValue.jsUndefined ≠ JSValue.jsNull := by
  refine ⟨rfl, rfl, by decide⟩

/-- C1 as amended: when the registered callback leaves the frame's return
slot at its initial value — the pointer to the `undefined` sentinel — the
trampoline collects and returns the **undefined** sentinel; the `null`
default applies exactly when the callback explicitly set the return slot
to the NULL pointer. -/
theorem trampoline_collect_default (argsIn : List JSValue)
    (selfIn : JSValue) (cfunc : shim_args_t → CallbackEffect) :
    ((cfunc (buildFrame argsIn selfIn)).retSlot = some shim__undefined →
      (Static argsIn selfIn cfunc).collected = JSValue.jsUndefined)
    ∧ ((cfunc (buildFrame argsIn selfIn)).retSlot = none →
      (Static argsIn selfIn cfunc).collected = JSValue.jsNull) := by
  constructor <;> intro h <;>
    simp [Static, h, collectResult, shim__undefined]

/-- Witness for C1's amended theorem: an untouched slot collects
`Undefined`, a NULL slot collects `Null`. -/
theorem trampoline_collect_default_witness :
    (Static [] JSValue.jsObject cbLeaveUnset).collected
        = JSValue.jsUndefined
    ∧ (Static [] JSValue.jsObject cbNullRet).collected = JSValue.jsNull :=
  ⟨(trampoline_collect_default [] JSValue.jsObject cbLeaveUnset).1 rfl,
   (trampoline_collect_default [] JSValue.jsObject cbNullRet).2 rfl⟩

/-- C7: if the callback leaves a pending exception in the capture scope,
the trampoline rethrows it and the host runtime observes that exception
— never the value the callback wrote into the return slot (shim.cc lines
288-296: the return value is set only when `!HasCaught()`). -/
theorem trampoline_exception_precedence (argsIn : List JSValue)
    (selfIn : JSValue) (cfunc : shim_args_t → CallbackEffect)
    (e : JSValue) (v : shim_val_t)
    (hexc : (cfunc (buildFrame argsIn selfIn)).exc = some e)
    (hret : (cfunc (buildFrame argsIn selfIn)).retSlot = some v) :
    (Static argsIn selfIn cfunc).outcome = Except.error e
    ∧ ∀ w, (Static argsIn selfIn cfunc).outcome ≠ Except.ok w := by
  refine ⟨?_, ?_⟩ <;> simp [Static, hexc]

/-- Witness for C7: the throwing-and-returning callback's exception is
what the runtime sees. -/
theorem trampoline_exception_precedence_witness :
    (Static [] JSValue.jsObject cbThrowAndReturn).outcome
      = Except.error (JSValue.jsString "boom") :=
  (trampoline_exception_precedence [] JSValue.jsObject cbThrowAndReturn
    (JSValue.jsString "boom") ⟨JSValue.jsNumber 7, shim_type_t.unknown⟩
    rfl rfl).1

/-- The trampoline's event trace, spelled out. -/
theorem Static_trace (argsIn : List JSValue) (selfIn : JSValue)
    (cfunc : shim_args_t → CallbackEffect) :
    (Static argsIn selfIn cfunc).trace
      = ((List.range argsIn.length).map TEvent.allocArg
          ++ [TEvent.allocSelf])
        ++ [TEvent.dispatch (cfunc (buildFrame argsIn selfIn)).ok]
        ++ ((List.range argsIn.length).map
              (fun i => TEvent.releaseArg i
                (shim_value_release
                  (applyTags (argsIn.map shim_val_alloc)
                    (cfunc (buildFrame argsIn selfIn)).argvTags)[i]?))
            ++ [TEvent.releaseSelf
                (shim_value_release
                  (some ⟨selfIn,
                    (cfunc (buildFrame argsIn selfIn)).selfTag⟩))])
        ++ (match (cfunc (buildFrame argsIn selfIn)).exc with
            | some _ => [TEvent.rethrow]
            | none => []) := rfl

/-- `fun j => j == i` counts exactly one hit in `range n` when `i < n`. -/
theorem countP_beq_range (i n : Nat) (h : i < n) :
    List.countP (fun j => j == i) (List.range n) = 1 := by
  induction n with
  | zero => omega
  | succ n ih =>
    rw [List.range_succ, List.countP_append]
    by_cases hin : i < n
    · rw [ih hin]
      have hne : ((n == i) = false) := by
        simp only [Nat.beq_eq_true_eq] at *
        simp
        omega
      simp [List.countP_cons, hne]
    · have hi2 : i = n := by omega
      subst hi2
      have h0 : List.countP (fun j => j == i) (List.range i) = 0 := by
        apply List.countP_eq_zero.mpr
        intro a ha
        have : a < i := List.mem_range.mp ha
        simp only [Nat.beq_eq_true_eq]
        omega
      simp [h0, List.countP_cons]

/-- No `allocArg` event is a release event. -/
theorem countP_allocs_zero (i n : Nat) :
    List.countP (isReleaseOfArg i) ((List.range n).map TEvent.allocArg)
      = 0 := by
  rw [List.countP_map]
  apply List.countP_eq_zero.mpr
  intro a _
  simp [Function.comp, isReleaseOfArg]

/-- The release loop over `range argc` releases index `i` exactly once. -/
theorem countP_releases_one (i n : Nat) (flag : Nat → Bool) (h : i < n) :
    List.countP (isReleaseOfArg i)
      ((List.range n).map (fun j => TEvent.releaseArg j (flag j))) = 1 := by
  rw [List.countP_map]
  exact countP_beq_range i n h

/-- C3: for every trampoline invocation — whatever the callback did:
returned success, returned failure, or left a pending exception — the
trace contains exactly one argument-release operation for each of the
`argc` allocated argument values and exactly one release of the
receiver: the release loop (shim.cc lines 276-280) and the receiver
release (line 280) run in straight line after dispatch, on every exit
path. -/
theorem trampoline_release_exactly_once (argsIn : List JSValue)
    (selfIn : JSValue) (cfunc : shim_args_t → CallbackEffect) :
    (∀ i, i < argsIn.length →
      (Static argsIn selfIn cfunc).trace.countP (isReleaseOfArg i) = 1)
    ∧ (Static argsIn selfIn cfunc).trace.countP isReleaseOfSelf = 1 := by
  rw [Static_trace]
  constructor
  · intro i hi
    rw [List.countP_append, List.countP_append, List.countP_append,
        List.countP_append, List.countP_append]
    rw [countP_allocs_zero, countP_releases_one i argsIn.length _ hi]
    rcases hexc : (cfunc (buildFrame argsIn selfIn)).exc with _ | e <;>
      simp [hexc, List.countP_cons, isReleaseOfArg]
  · rw [List.countP_append, List.countP_append, List.countP_append,
        List.countP_append, List.countP_append]
    have h1 : List.countP isReleaseOfSelf
        ((List.range argsIn.length).map TEvent.allocArg) = 0 := by
      rw [List.countP_map]
      apply List.countP_eq_zero.mpr
      intro a _
      simp [Function.comp, isReleaseOfSelf]
    have h2 : List.countP isReleaseOfSelf
        ((List.range argsIn.length).map
          (fun i => TEvent.releaseArg i
            (shim_value_release
              (applyTags (argsIn.map shim_val_alloc)
                (cfunc (buildFrame argsIn selfIn)).argvTags)[i]?))) = 0 := by
      rw [List.countP_map]
      apply List.countP_eq_zero.mpr
      intro a _
      simp [Function.comp, isReleaseOfSelf]
    rw [h1, h2]
    rcases hexc : (cfunc (buildFrame argsIn selfIn)).exc with _ | e <;>
      simp [hexc, List.countP_cons, isReleaseOfSelf]

/-- Witness for C3: one release per argument and one receiver release in
a concrete invocation whose callback fails without raising. -/
theorem trampoline_release_exactly_once_witness :
    (Static [JSValue.jsNumber 3] JSValue.jsObject cbFailQuiet).trace.countP
        (isReleaseOfArg 0) = 1
    ∧ (Static [JSValue.jsNumber 3] JSValue.jsObject cbFailQuiet).trace.countP
        isReleaseOfSelf = 1 :=
  ⟨(trampoline_release_exactly_once [JSValue.jsNumber 3] JSValue.jsObject
      cbFailQuiet).1 0 (by decide),
   (trampoline_release_exactly_once [JSValue.jsNumber 3] JSValue.jsObject
      cbFailQuiet).2⟩

/-- C5: `shim_unpack` stops at the first positional argument that cannot
satisfy its requested type: when pairs `0..j-1` extract successfully, no
terminator appears up to `j`, and argument `j` (within `argc`) cannot
satisfy requested type `tj`, the call returns FALSE immediately with a
type-error exception carrying the offending index and the expected
type's name ("Argument j not of type <name>"), every earlier destination
has already been written with its extracted value, and no later
destination is written. -/
theorem shim_unpack_short_circuit (argv : List shim_val_t)
    (ts : List shim_type_t) (j : Nat) (tj : shim_type_t)
    (htj : ts[j]? = some tj)
    (hja : j < argv.length)
    (hs : ∀ i, i ≤ j → ts[i]? ≠ some shim_type_t.unknown)
    (hok : ∀ i, i < j → (unpackAt argv ts i).isSome = true)
    (hfail : unpackAt argv ts j = none) :
    (shim_unpack argv ts).1 = false
    ∧ (shim_unpack argv ts).2.2
        = some (shim_throw_type_error
            ("Argument " ++ toString j ++ " not of type "
              ++ shim_type_str tj))
    ∧ (∀ i, i < j →
        (shim_unpack argv ts).2.1[i]? = some (unpackAt argv ts i))
    ∧ (∀ i, j ≤ i → i < ts.length →
        (shim_unpack argv ts).2.1[i]? = some none) := by
  have H := shim_unpack_go_fail j ts argv 0
    (List.replicate ts.length none) tj
    (by rw [List.length_replicate]; omega)
    htj
    (by omega)
    hs
    (by intro i hi
        rw [unpackAtFrom_zero]
        exact hok i hi)
    (by rw [unpackAtFrom_zero]
        exact hfail)
  obtain ⟨H1, H2, H3, H4, H5⟩ := H
  unfold shim_unpack
  refine ⟨H1, ?_, ?_, ?_⟩
  · rw [H2, Nat.zero_add]
  · intro i hi
    have h := H4 i hi
    rw [Nat.zero_add, unpackAtFrom_zero] at h
    exact h
  · intro i hi1 hi2
    have h := H5 i (by omega)
    rw [h]
    simp [List.getElem?_replicate, hi2]

/-- Witness for C5 at the spec's own example: types `[number, string]`
against arguments `[42, <object>]` fail at index 1 with a type error
naming `SHIM_TYPE_STRING`, while destination 0 already holds the
extracted `42`. -/
theorem shim_unpack_short_circuit_witness :
    (shim_unpack exampleArgv exampleTs).1 = false
    ∧ (shim_unpack exampleArgv exampleTs).2.2
        = some (shim_throw_type_error
            ("Argument " ++ toString 1 ++ " not of type "
              ++ shim_type_str shim_type_t.string))
    ∧ (shim_unpack exampleArgv exampleTs).2.1[0]?
        = some (unpackAt exampleArgv exampleTs 0)
    ∧ (shim_unpack exampleArgv exampleTs).2.1[1]? = some none
    ∧ unpackAt exampleArgv exampleTs 0
        = some (Unpacked.uNumber 42) := by
  have H := shim_unpack_short_circuit exampleArgv exampleTs 1
    shim_type_t.string
    (by decide)
    (by decide)
    (by intro i hi
        rcases i with _ | (_ | n)
        · decide
        · decide
        · omega)
    (by intro i hi
        rcases i with _ | n
        · decide
        · omega)
    (by decide)
  exact ⟨H.1, H.2.1, H.2.2.1 0 (by decide),
    H.2.2.2 1 (by decide) (by decide), by decide⟩

/-- C10 counterexample: a `(type, destination)` list that requests more
positional arguments than `argc` does **not** always make `shim_unpack`
return TRUE — if an argument below `argc` fails its requested type the
call still fails with an exception, over-long list or not.  Here one
object argument is unpacked against `[number, string]` (2 requests >
argc = 1). -/
theorem shim_unpack_overlong_fails_cex :
    ([shim_type_t.number, shim_type_t.string] : List shim_type_t).length
        > ([⟨JSValue.jsObject, shim_type_t.unknown⟩] :
            List shim_val_t).length
    ∧ (shim_unpack [⟨JSValue.jsObject, shim_type_t.unknown⟩]
        [shim_type_t.number, shim_type_t.string]).1 = false
    ∧ (shim_unpack [⟨JSValue.jsObject, shim_type_t.unknown⟩]
        [shim_type_t.number, shim_type_t.string]).2.2.isSome = true := by
  decide

/-- C10 as amended: `shim_unpack` returns TRUE with no exception raised
whenever every pair the loop actually reaches — below `argc` and before
any `SHIM_TYPE_UNKNOWN` terminator — extracts successfully; in
particular the loop stops at `argc`, so requesting more positional
arguments than `argc` is silently accepted rather than reported, and any
unpack against an empty frame (`argc = 0`) succeeds unconditionally. -/
theorem shim_unpack_missing_args_ok (argv : List shim_val_t)
    (ts : List shim_type_t)
    (hok : ∀ i, i < ts.length → i < argv.length →
      ts[i]? = some shim_type_t.unknown
      ∨ (unpackAt argv ts i).isSome = true) :
    (shim_unpack argv ts).1 = true
    ∧ (shim_unpack argv ts).2.2 = none := by
  unfold shim_unpack
  apply shim_unpack_go_ok
  intro i hi hia
  rcases hok i hi (by omega) with hl | hr
  · exact Or.inl hl
  · right
    rw [unpackAtFrom_zero]
    exact hr

/-- Witness for C10's amended theorem: unpacking an empty frame against a
non-empty type list succeeds, and a frame whose only argument satisfies
the first of three requested types also succeeds. -/
theorem shim_unpack_missing_args_ok_witness :
    (shim_unpack [] [shim_type_t.number]).1 = true
    ∧ (shim_unpack [⟨JSValue.jsNumber 42, shim_type_t.unknown⟩]
        [shim_type_t.number, shim_type_t.string, shim_type_t.bool]).1
      = true :=
  ⟨(shim_unpack_missing_args_ok [] [shim_type_t.number]
      (fun i _ h2 => absurd h2 (Nat.not_lt_zero i))).1,
   (shim_unpack_missing_args_ok
      [⟨JSValue.jsNumber 42, shim_type_t.unknown⟩]
      [shim_type_t.number, shim_type_t.string, shim_type_t.bool]
      (by intro i hi hia
          rcases i with _ | n
          · right
            decide
          · simp only [List.length_cons, List.length_nil] at hia
            omega)).1⟩

end Shim
